import Mathlib

/-!
Shallow embedding of `src/nodes/curator_graph.py` from the
Social_fraud_alert_system repository: a three-node LangGraph workflow
(`analyze_patterns` → conditional → `classify_type` → `generate_summary`)
driven by three LLM agents, wrapped by `CuratorAgent.analyze_case`.

The three LLM agents are external, nondeterministic collaborators; they are
modelled as oracle functions collected in an `Agents` record.  Each oracle
returns `Except String T`: `Except.ok` is a model output that passed the
node's schema validation (`T.model_validate`), `Except.error e` models a
model output whose schema validation raised, carrying the validation error
text `e`.  Python exceptions are modelled by `Except String` throughout;
`datetime.now()` is modelled by an explicit `now : Nat` parameter.
-/

/-- Embedding of `PatternAnalysisOutput` (curator_graph.py lines 48-51). -/
structure PatternAnalysisOutput where
  is_fraud : Bool
  patterns : List String
  reasoning : String
deriving DecidableEq, Repr

/-- Embedding of `FraudTypeOutput` (lines 54-57).  Pydantic declares the
fields `fraud_type : str`, `explanation : str`,
`new_type_name : Optional[str] = None` and attaches no validator. -/
structure FraudTypeOutput where
  fraud_type : String
  explanation : String
  new_type_name : Option String
deriving DecidableEq, Repr

/-- Embedding of `FraudSummaryOutput` (lines 60-63). -/
structure FraudSummaryOutput where
  summary : String
  warning_signs : List String
  precautions : List String
deriving DecidableEq, Repr

/-- Embedding of `CuratorState` (lines 31-40).  `pattern_analysis` and
`fraud_type` hold the validated agent outputs (serialized dicts in Python). -/
structure CuratorState where
  text : String
  similar_cases : List String
  pattern_analysis : Option PatternAnalysisOutput
  fraud_type : Option FraudTypeOutput
  final_summary : Option String
  is_fraud : Bool
  new_type_name : Option String
deriving DecidableEq, Repr

/-- Embedding of `FraudAnalysis` (lines 19-27); `timestamp` is opaque. -/
structure FraudAnalysis where
  is_fraud : Bool
  fraud_type : String
  explanation : String
  similar_cases : List String
  timestamp : Nat
  new_type_name : Option String
deriving DecidableEq, Repr

/-- The three LLM agents (`PatternAnalysisAgent.analyze`,
`FraudTypeAgent.classify`, `SummaryAgent.summarize`) as oracles.  The
argument types follow the call sites in the node functions:
`classify_type` passes `state.pattern_analysis` and `state.similar_cases`,
`generate_summary` passes `state.pattern_analysis` and `state.fraud_type`. -/
structure Agents where
  pattern_agent : String → Except String PatternAnalysisOutput
  type_agent : Option PatternAnalysisOutput → List String →
    Except String FraudTypeOutput
  summary_agent : Option PatternAnalysisOutput → Option FraudTypeOutput →
    Except String FraudSummaryOutput

/-- The initial state built by `analyze_case` (lines 304-306):
`CuratorState(text=..., similar_cases=...)` with pydantic defaults for the
remaining fields. -/
def initState (text : String) (similar_cases : List String) : CuratorState :=
  { text := text, similar_cases := similar_cases, pattern_analysis := none,
    fraud_type := none, final_summary := none, is_fraud := false,
    new_type_name := none }

/-- Node `analyze_patterns` (lines 213-224): run the pattern agent, wrap a
validation failure in the descriptive ValueError text, store the validated
output and its fraud flag in the state. -/
def analyze_patterns (a : Agents) (s : CuratorState) :
    Except String CuratorState :=
  match a.pattern_agent s.text with
  | Except.error e =>
      Except.error ("Error al validar el resultado de PatternAnalysisAgent: " ++ e)
  | Except.ok r =>
      Except.ok { s with pattern_analysis := some r, is_fraud := r.is_fraud }

/-- Node `classify_type` (lines 226-237): run the type agent on the stored
pattern analysis and the similar cases, store the output; copy
`new_type_name` into the state only when `fraud_type == "NEW"` (otherwise
the state's `new_type_name` is left unchanged). -/
def classify_type (a : Agents) (s : CuratorState) :
    Except String CuratorState :=
  match a.type_agent s.pattern_analysis s.similar_cases with
  | Except.error e =>
      Except.error ("Error al validar el resultado de FraudTypeAgent: " ++ e)
  | Except.ok r =>
      Except.ok { s with
                  fraud_type := some r,
                  new_type_name :=
                    if r.fraud_type = "NEW" then r.new_type_name
                    else s.new_type_name }

/-- Node `generate_summary` (lines 239-254): run the summary agent on the
stored pattern analysis and fraud type; only the summary text is kept. -/
def generate_summary (a : Agents) (s : CuratorState) :
    Except String CuratorState :=
  match a.summary_agent s.pattern_analysis s.fraud_type with
  | Except.error e =>
      Except.error ("Error al validar el resultado de SummaryAgent: " ++ e)
  | Except.ok r =>
      Except.ok { s with final_summary := some r.summary }

/-- Conditional router `should_classify` (lines 262-264). -/
def should_classify (s : CuratorState) : String :=
  if s.is_fraud then "classify" else "end"

/-- Execution of the compiled graph built by `create_curator_graph`
(lines 256-275): entry point `analyze_patterns`; conditional edge to
`classify_type` or END via `should_classify`; then `generate_summary`;
then END.  Returns the outcome together with the list of node names that
were invoked (a node that raised is still listed as invoked). -/
def runCuratorGraph (a : Agents) (s0 : CuratorState) :
    Except String CuratorState × List String :=
  match analyze_patterns a s0 with
  | Except.error e => (Except.error e, ["analyze_patterns"])
  | Except.ok s1 =>
    if should_classify s1 = "classify" then
      match classify_type a s1 with
      | Except.error e => (Except.error e, ["analyze_patterns", "classify_type"])
      | Except.ok s2 =>
        match generate_summary a s2 with
        | Except.error e =>
            (Except.error e,
             ["analyze_patterns", "classify_type", "generate_summary"])
        | Except.ok s3 =>
            (Except.ok s3,
             ["analyze_patterns", "classify_type", "generate_summary"])
    else
      (Except.ok s1, ["analyze_patterns"])

/-- Python's `a or b` for `a : Optional[str]`: both `None` and the empty
string are falsy, so they fall back to `b` (line 315-316). -/
def pyOr (a : Option String) (b : String) : String :=
  match a with
  | none => b
  | some s => if s = "" then b else s

/-- `CuratorAgent.analyze_case` (lines 300-328): build the initial state,
run the workflow, and map the terminal state to a `FraudAnalysis`.  The
fraud branch subscripts `final_state.fraud_type` and (via the `or`
fallback) `final_state.pattern_analysis`; subscripting a missing dict is a
Python TypeError, modelled as an error result. -/
def analyze_case (a : Agents) (now : Nat) (text : String)
    (similar_cases : List String) : Except String FraudAnalysis :=
  match (runCuratorGraph a (initState text similar_cases)).1 with
  | Except.error e => Except.error e
  | Except.ok fs =>
    if fs.is_fraud then
      match fs.fraud_type, fs.pattern_analysis with
      | some ft, some pa =>
          Except.ok { is_fraud := true, fraud_type := ft.fraud_type,
                      explanation := pyOr fs.final_summary pa.reasoning,
                      similar_cases := similar_cases, timestamp := now,
                      new_type_name := fs.new_type_name }
      | _, _ => Except.error "TypeError: NoneType is not subscriptable"
    else
      match fs.pattern_analysis with
      | some pa =>
          Except.ok { is_fraud := false, fraud_type := "NO_FRAUD",
                      explanation := pa.reasoning,
                      similar_cases := similar_cases, timestamp := now,
                      new_type_name := none }
      | none => Except.error "TypeError: NoneType is not subscriptable"

/-- `BaseAgent._validate_and_parse_response` (lines 91-100): the `try`
body is a bare `return response`, so the `except` branch (print the error
and the original response, re-raise) is unreachable; the function is the
identity and never raises.  An error, were one possible, would carry the
error text and the original response. -/
def validate_and_parse_response {α : Type} (response : α) :
    Except (String × α) α :=
  Except.ok response

/-! ## Run lemmas: the two possible successful executions of the graph -/

/-- When the pattern agent reports no fraud, the graph stops after
`analyze_patterns`. -/
theorem runCuratorGraph_nofraud (a : Agents) (text : String)
    (cases : List String) (p : PatternAnalysisOutput)
    (h1 : a.pattern_agent text = Except.ok p) (h2 : p.is_fraud = false) :
    runCuratorGraph a (initState text cases) =
      (Except.ok { text := text, similar_cases := cases,
                   pattern_analysis := some p, fraud_type := none,
                   final_summary := none, is_fraud := false,
                   new_type_name := none },
       ["analyze_patterns"]) := by
  simp [runCuratorGraph, analyze_patterns, should_classify, initState, h1, h2]

/-- When the pattern agent reports fraud and both later agents validate,
the graph runs all three nodes and produces the fully determined terminal
state. -/
theorem runCuratorGraph_fraud (a : Agents) (text : String)
    (cases : List String) (p : PatternAnalysisOutput) (t : FraudTypeOutput)
    (m : FraudSummaryOutput)
    (h1 : a.pattern_agent text = Except.ok p) (h2 : p.is_fraud = true)
    (h3 : a.type_agent (some p) cases = Except.ok t)
    (h4 : a.summary_agent (some p) (some t) = Except.ok m) :
    runCuratorGraph a (initState text cases) =
      (Except.ok { text := text, similar_cases := cases,
                   pattern_analysis := some p, fraud_type := some t,
                   final_summary := some m.summary, is_fraud := true,
                   new_type_name :=
                     if t.fraud_type = "NEW" then t.new_type_name else none },
       ["analyze_patterns", "classify_type", "generate_summary"]) := by
  simp [runCuratorGraph, analyze_patterns, classify_type, generate_summary,
        should_classify, initState, h1, h2, h3, h4]

/-! ## Concrete agent configurations used by witnesses and counterexamples -/

/-- A pattern agent that reports no fraud; the later agents would raise if
they were ever invoked. -/
def aNoFraud : Agents :=
  { pattern_agent := fun _ => Except.ok ⟨false, [], "no deception present"⟩,
    type_agent := fun _ _ => Except.error "never invoked",
    summary_agent := fun _ _ => Except.error "never invoked" }

/-- Fraud detected, classified into an existing type, non-empty summary. -/
def aFraudKnown : Agents :=
  { pattern_agent := fun _ =>
      Except.ok ⟨true, ["urgency"], "clear phishing indicators"⟩,
    type_agent := fun _ _ => Except.ok ⟨"PHISHING", "matches known type", none⟩,
    summary_agent := fun _ _ =>
      Except.ok ⟨"a phishing warning", ["sign"], ["care"]⟩ }

/-- Fraud detected, classified into an existing type, but the summary agent
returns the empty string as its summary text. -/
def aFraudEmptySummary : Agents :=
  { pattern_agent := fun _ =>
      Except.ok ⟨true, ["urgency"], "pattern reasoning"⟩,
    type_agent := fun _ _ => Except.ok ⟨"PHISHING", "matched", none⟩,
    summary_agent := fun _ _ => Except.ok ⟨"", [], []⟩ }

/-- Fraud detected and classified as a genuinely new type. -/
def aFraudNew : Agents :=
  { pattern_agent := fun _ => Except.ok ⟨true, ["novel"], "novel mechanism"⟩,
    type_agent := fun _ _ =>
      Except.ok ⟨"NEW", "no existing type fits", some "SYNTHETIC IDENTITY"⟩,
    summary_agent := fun _ _ => Except.ok ⟨"warn", [], []⟩ }

/-- Pattern-agent output that fails schema validation. -/
def aPatternInvalid : Agents :=
  { pattern_agent := fun _ => Except.error "missing field reasoning",
    type_agent := fun _ _ => Except.error "never invoked",
    summary_agent := fun _ _ => Except.error "never invoked" }

/-- Type-agent output that fails schema validation. -/
def aTypeInvalid : Agents :=
  { pattern_agent := fun _ => Except.ok ⟨true, [], "rsn"⟩,
    type_agent := fun _ _ => Except.error "missing field fraud_type",
    summary_agent := fun _ _ => Except.error "never invoked" }

/-- Summary-agent output that fails schema validation. -/
def aSummaryInvalid : Agents :=
  { pattern_agent := fun _ => Except.ok ⟨true, [], "rsn"⟩,
    type_agent := fun _ _ => Except.ok ⟨"PHISHING", "ex", none⟩,
    summary_agent := fun _ _ => Except.error "missing field summary" }

/-! ## C1 -/

/-- C1: whenever the pattern-analysis agent reports `is_fraud = false`,
`analyze_case` returns a `FraudAnalysis` with `is_fraud = false`,
`fraud_type = "NO_FRAUD"` and `explanation` equal to the pattern analysis's
`reasoning`, and the node trace shows that neither `classify_type` nor
`generate_summary` was invoked. -/
theorem C1_nofraud_short_circuit (a : Agents) (now : Nat) (text : String)
    (cases : List String) (p : PatternAnalysisOutput)
    (h1 : a.pattern_agent text = Except.ok p) (h2 : p.is_fraud = false) :
    analyze_case a now text cases =
      Except.ok { is_fraud := false, fraud_type := "NO_FRAUD",
                  explanation := p.reasoning, similar_cases := cases,
                  timestamp := now, new_type_name := none } ∧
    (runCuratorGraph a (initState text cases)).2 = ["analyze_patterns"] := by
  have hrun := runCuratorGraph_nofraud a text cases p h1 h2
  constructor
  · simp [analyze_case, hrun]
  · simp [hrun]

/-- Witness for C1 at a concrete no-fraud configuration. -/
theorem C1_nofraud_short_circuit_witness :
    analyze_case aNoFraud 7 "a dispute" ["c1"] =
      Except.ok { is_fraud := false, fraud_type := "NO_FRAUD",
                  explanation := "no deception present",
                  similar_cases := ["c1"], timestamp := 7,
                  new_type_name := none } ∧
    (runCuratorGraph aNoFraud (initState "a dispute" ["c1"])).2 =
      ["analyze_patterns"] :=
  C1_nofraud_short_circuit aNoFraud 7 "a dispute" ["c1"]
    ⟨false, [], "no deception present"⟩ rfl rfl

/-! ## C2 -/

/-- C2 counterexample: the summary agent can return the empty string, in
which case the terminal state has `final_summary = some ""` (a summary
exists), yet the explanation falls back to the pattern-analysis reasoning
because Python's `or` treats the empty string as absent.  So "explanation
equals the summary text when a summary exists in the terminal state" fails
at this input. -/
theorem C2_counterexample :
    ((runCuratorGraph aFraudEmptySummary (initState "t" [])).1.map
        CuratorState.final_summary = Except.ok (some "")) ∧
    ((analyze_case aFraudEmptySummary 0 "t" []).map
        FraudAnalysis.explanation = Except.ok "pattern reasoning") ∧
    "pattern reasoning" ≠ "" := by
  refine ⟨rfl, rfl, by decide⟩

/-- C2 (amended): when the pattern agent reports fraud and the later agents
validate, the result's `fraud_type` comes from the classification step and
the explanation equals the summary text when the terminal summary is
non-empty, otherwise the pattern-analysis reasoning; when it reports no
fraud, `fraud_type` is the `"NO_FRAUD"` sentinel and the explanation is the
pattern-analysis reasoning. -/
theorem C2_result_mapping (a : Agents) (now : Nat) (text : String)
    (cases : List String) (p : PatternAnalysisOutput) (t : FraudTypeOutput)
    (m : FraudSummaryOutput)
    (h1 : a.pattern_agent text = Except.ok p)
    (h3 : a.type_agent (some p) cases = Except.ok t)
    (h4 : a.summary_agent (some p) (some t) = Except.ok m) :
    (p.is_fraud = true →
      analyze_case a now text cases =
        Except.ok { is_fraud := true, fraud_type := t.fraud_type,
                    explanation :=
                      if m.summary = "" then p.reasoning else m.summary,
                    similar_cases := cases, timestamp := now,
                    new_type_name :=
                      if t.fraud_type = "NEW" then t.new_type_name
                      else none }) ∧
    (p.is_fraud = false →
      analyze_case a now text cases =
        Except.ok { is_fraud := false, fraud_type := "NO_FRAUD",
                    explanation := p.reasoning, similar_cases := cases,
                    timestamp := now, new_type_name := none }) := by
  constructor
  · intro h2
    have hrun := runCuratorGraph_fraud a text cases p t m h1 h2 h3 h4
    simp [analyze_case, hrun, pyOr]
  · intro h2
    have hrun := runCuratorGraph_nofraud a text cases p h1 h2
    simp [analyze_case, hrun]

/-- Witness for the amended C2 at a concrete fraud configuration with a
non-empty summary. -/
theorem C2_result_mapping_witness :
    analyze_case aFraudKnown 3 "mail" ["k"] =
      Except.ok { is_fraud := true, fraud_type := "PHISHING",
                  explanation := "a phishing warning",
                  similar_cases := ["k"], timestamp := 3,
                  new_type_name := none } := by
  have h := (C2_result_mapping aFraudKnown 3 "mail" ["k"]
    ⟨true, ["urgency"], "clear phishing indicators"⟩
    ⟨"PHISHING", "matches known type", none⟩
    ⟨"a phishing warning", ["sign"], ["care"]⟩ rfl rfl rfl).1 rfl
  rw [h]
  simp

/-! ## C3 -/

/-- C3: in a completed fraud run, the result's `new_type_name` equals the
type agent's `new_type_name` when the type agent returned
`fraud_type = "NEW"`, and is `none` for any other `fraud_type`. -/
theorem C3_new_type_name_propagation (a : Agents) (now : Nat)
    (text : String) (cases : List String) (p : PatternAnalysisOutput)
    (t : FraudTypeOutput) (m : FraudSummaryOutput)
    (h1 : a.pattern_agent text = Except.ok p) (h2 : p.is_fraud = true)
    (h3 : a.type_agent (some p) cases = Except.ok t)
    (h4 : a.summary_agent (some p) (some t) = Except.ok m) :
    (analyze_case a now text cases).map FraudAnalysis.new_type_name =
      Except.ok (if t.fraud_type = "NEW" then t.new_type_name else none) := by
  have hrun := runCuratorGraph_fraud a text cases p t m h1 h2 h3 h4
  simp [analyze_case, hrun, Except.map]

/-- Witness for C3 at a concrete "NEW" classification. -/
theorem C3_new_type_name_propagation_witness :
    (analyze_case aFraudNew 1 "txt" []).map FraudAnalysis.new_type_name =
      Except.ok (some "SYNTHETIC IDENTITY") := by
  have h := C3_new_type_name_propagation aFraudNew 1 "txt" []
    ⟨true, ["novel"], "novel mechanism"⟩
    ⟨"NEW", "no existing type fits", some "SYNTHETIC IDENTITY"⟩
    ⟨"warn", [], []⟩ rfl rfl rfl rfl
  rw [h]
  simp

/-! ## C10 -/

/-- C10: when the workflow terminates with `is_fraud = true` and the
terminal `final_summary` is the empty string, the explanation falls back to
the pattern-analysis reasoning: the empty summary string is treated the
same as an absent summary. -/
theorem C10_empty_summary_fallback (a : Agents) (now : Nat) (text : String)
    (cases : List String) (p : PatternAnalysisOutput) (t : FraudTypeOutput)
    (m : FraudSummaryOutput)
    (h1 : a.pattern_agent text = Except.ok p) (h2 : p.is_fraud = true)
    (h3 : a.type_agent (some p) cases = Except.ok t)
    (h4 : a.summary_agent (some p) (some t) = Except.ok m)
    (h5 : m.summary = "") :
    ((runCuratorGraph a (initState text cases)).1.map
        CuratorState.final_summary = Except.ok (some "")) ∧
    (analyze_case a now text cases).map FraudAnalysis.explanation =
      Except.ok p.reasoning := by
  have hrun := runCuratorGraph_fraud a text cases p t m h1 h2 h3 h4
  constructor
  · simp [hrun, h5, Except.map]
  · simp [analyze_case, hrun, pyOr, h5, Except.map]

/-- Witness for C10 at a concrete empty-summary configuration. -/
theorem C10_empty_summary_fallback_witness :
    ((runCuratorGraph aFraudEmptySummary (initState "u" ["s"])).1.map
        CuratorState.final_summary = Except.ok (some "")) ∧
    (analyze_case aFraudEmptySummary 9 "u" ["s"]).map
        FraudAnalysis.explanation = Except.ok "pattern reasoning" :=
  C10_empty_summary_fallback aFraudEmptySummary 9 "u" ["s"]
    ⟨true, ["urgency"], "pattern reasoning"⟩
    ⟨"PHISHING", "matched", none⟩ ⟨"", [], []⟩ rfl rfl rfl rfl rfl

/-! ## Inversion and frame lemmas for the node functions -/

/-- A successful `analyze_patterns` step touches only `pattern_analysis`
and `is_fraud`. -/
theorem analyze_patterns_ok_shape (a : Agents) (s sx : CuratorState)
    (h : analyze_patterns a s = Except.ok sx) :
    sx.similar_cases = s.similar_cases ∧ sx.fraud_type = s.fraud_type ∧
    sx.new_type_name = s.new_type_name ∧
    sx.final_summary = s.final_summary ∧ sx.text = s.text := by
  unfold analyze_patterns at h
  split at h
  · simp at h
  · simp only [Except.ok.injEq] at h
    subst h
    exact ⟨rfl, rfl, rfl, rfl, rfl⟩

/-- A successful `classify_type` step touches only `fraud_type` and
`new_type_name`. -/
theorem classify_type_ok_shape (a : Agents) (s sx : CuratorState)
    (h : classify_type a s = Except.ok sx) :
    sx.is_fraud = s.is_fraud ∧ sx.similar_cases = s.similar_cases ∧
    sx.pattern_analysis = s.pattern_analysis ∧
    sx.final_summary = s.final_summary ∧ sx.text = s.text := by
  unfold classify_type at h
  split at h
  · simp at h
  · simp only [Except.ok.injEq] at h
    subst h
    exact ⟨rfl, rfl, rfl, rfl, rfl⟩

/-- A successful `generate_summary` step touches only `final_summary`. -/
theorem generate_summary_ok_shape (a : Agents) (s sx : CuratorState)
    (h : generate_summary a s = Except.ok sx) :
    sx.is_fraud = s.is_fraud ∧ sx.similar_cases = s.similar_cases ∧
    sx.fraud_type = s.fraud_type ∧ sx.new_type_name = s.new_type_name ∧
    sx.pattern_analysis = s.pattern_analysis ∧ sx.text = s.text := by
  unfold generate_summary at h
  split at h
  · simp at h
  · simp only [Except.ok.injEq] at h
    subst h
    exact ⟨rfl, rfl, rfl, rfl, rfl, rfl⟩

/-- Every `FraudAnalysis` that `analyze_case` returns echoes the input
similar-cases list and the supplied timestamp, on either branch. -/
theorem analyze_case_ok_inv (a : Agents) (now : Nat) (text : String)
    (cases : List String) (r : FraudAnalysis)
    (h : analyze_case a now text cases = Except.ok r) :
    r.similar_cases = cases ∧ r.timestamp = now := by
  unfold analyze_case at h
  split at h
  · simp at h
  · split at h
    · split at h
      · simp only [Except.ok.injEq] at h
        subst h
        exact ⟨rfl, rfl⟩
      · simp at h
    · split at h
      · simp only [Except.ok.injEq] at h
        subst h
        exact ⟨rfl, rfl⟩
      · simp at h

/-- The node trace of any run is one of the three prefixes of the full
pipeline. -/
theorem trace_cases (b : Agents) (s : CuratorState) :
    (runCuratorGraph b s).2 = ["analyze_patterns"] ∨
    (runCuratorGraph b s).2 = ["analyze_patterns", "classify_type"] ∨
    (runCuratorGraph b s).2 =
      ["analyze_patterns", "classify_type", "generate_summary"] := by
  unfold runCuratorGraph
  rcases analyze_patterns b s with e | s1
  · exact Or.inl rfl
  · dsimp only
    by_cases hc : should_classify s1 = "classify"
    · rw [if_pos hc]
      rcases classify_type b s1 with e | s2
      · exact Or.inr (Or.inl rfl)
      · dsimp only
        rcases generate_summary b s2 with e | s3
        · exact Or.inr (Or.inr rfl)
        · exact Or.inr (Or.inr rfl)
    · rw [if_neg hc]
      exact Or.inl rfl

/-! ## C4 -/

/-- C4: the result's `similar_cases` is always exactly the input
similar-cases list, on every branch, and no workflow node modifies the
state's `similar_cases` field. -/
theorem C4_similar_cases_frame (a : Agents) (now : Nat) (text : String)
    (cases : List String) :
    (∀ r, analyze_case a now text cases = Except.ok r →
        r.similar_cases = cases) ∧
    (∀ s sx, analyze_patterns a s = Except.ok sx →
        sx.similar_cases = s.similar_cases) ∧
    (∀ s sx, classify_type a s = Except.ok sx →
        sx.similar_cases = s.similar_cases) ∧
    (∀ s sx, generate_summary a s = Except.ok sx →
        sx.similar_cases = s.similar_cases) :=
  ⟨fun r h => (analyze_case_ok_inv a now text cases r h).1,
   fun s sx h => (analyze_patterns_ok_shape a s sx h).1,
   fun s sx h => (classify_type_ok_shape a s sx h).2.1,
   fun s sx h => (generate_summary_ok_shape a s sx h).2.1⟩

/-- Witness for C4 at a concrete run. -/
theorem C4_similar_cases_frame_witness :
    ({ is_fraud := false, fraud_type := "NO_FRAUD",
       explanation := "no deception present", similar_cases := ["x", "y"],
       timestamp := 0, new_type_name := none } :
        FraudAnalysis).similar_cases = ["x", "y"] :=
  (C4_similar_cases_frame aNoFraud 0 "t" ["x", "y"]).1 _ rfl

/-! ## C5 -/

/-- C5 counterexample: with the pattern agent reporting `is_fraud = true`
but the type agent's output failing schema validation, the run aborts at
`classify_type` and `generate_summary` is never invoked, so the original
claim ("the type agent and then the summary agent, each exactly once")
fails at this input. -/
theorem C5_counterexample :
    (aTypeInvalid.pattern_agent "t").map PatternAnalysisOutput.is_fraud =
      Except.ok true ∧
    (runCuratorGraph aTypeInvalid (initState "t" [])).2 =
      ["analyze_patterns", "classify_type"] ∧
    "generate_summary" ∉ (runCuratorGraph aTypeInvalid (initState "t" [])).2 := by
  refine ⟨rfl, rfl, by decide⟩

/-- C5 (amended): when the pattern agent reports fraud and the
classification output passes validation, the run invokes
`analyze_patterns`, `classify_type` and `generate_summary` in that order,
each exactly once; and no run of the graph ever invokes any node twice. -/
theorem C5_fraud_invokes_both_once (a : Agents) (text : String)
    (cases : List String) (p : PatternAnalysisOutput) (t : FraudTypeOutput)
    (h1 : a.pattern_agent text = Except.ok p) (h2 : p.is_fraud = true)
    (h3 : a.type_agent (some p) cases = Except.ok t) :
    (runCuratorGraph a (initState text cases)).2 =
      ["analyze_patterns", "classify_type", "generate_summary"] ∧
    ∀ (b : Agents) (s : CuratorState), ((runCuratorGraph b s).2).Nodup := by
  constructor
  · rcases hm : a.summary_agent (some p) (some t) with e | m
    · simp [runCuratorGraph, analyze_patterns, classify_type,
            generate_summary, should_classify, initState, h1, h2, h3, hm]
    · have hrun := runCuratorGraph_fraud a text cases p t m h1 h2 h3 hm
      simp [hrun]
  · intro b s
    rcases trace_cases b s with h | h | h <;> rw [h] <;> decide

/-- Witness for C5 at a concrete fraud configuration. -/
theorem C5_fraud_invokes_both_once_witness :
    (runCuratorGraph aFraudKnown (initState "mail" ["k"])).2 =
      ["analyze_patterns", "classify_type", "generate_summary"] :=
  (C5_fraud_invokes_both_once aFraudKnown "mail" ["k"]
    ⟨true, ["urgency"], "clear phishing indicators"⟩
    ⟨"PHISHING", "matches known type", none⟩ rfl rfl rfl).1

/-! ## C6 -/

/-- The state invariant claimed by the spec: `fraud_type` and
`new_type_name` are populated only when `is_fraud` is true. -/
def fraudFieldsInv (s : CuratorState) : Prop :=
  (s.fraud_type.isSome = true → s.is_fraud = true) ∧
  (s.new_type_name.isSome = true → s.is_fraud = true)

/-- C6: `is_fraud` is written only by the first node — `classify_type` and
`generate_summary` preserve it (and `generate_summary` also leaves
`fraud_type` and `new_type_name` untouched) — and along any run from the
initial state every intermediate state satisfies `fraudFieldsInv`:
`fraud_type` and `new_type_name` are populated only when `is_fraud` is
true. -/
theorem C6_state_invariant (a : Agents) (text : String)
    (cases : List String) :
    (∀ s sx, classify_type a s = Except.ok sx → sx.is_fraud = s.is_fraud) ∧
    (∀ s sx, generate_summary a s = Except.ok sx →
        sx.is_fraud = s.is_fraud ∧ sx.fraud_type = s.fraud_type ∧
        sx.new_type_name = s.new_type_name) ∧
    (∀ s1, analyze_patterns a (initState text cases) = Except.ok s1 →
        fraudFieldsInv s1 ∧
        ∀ s2, classify_type a s1 = Except.ok s2 → s1.is_fraud = true →
          fraudFieldsInv s2 ∧
          ∀ s3, generate_summary a s2 = Except.ok s3 →
            fraudFieldsInv s3) := by
  refine ⟨fun s sx h => (classify_type_ok_shape a s sx h).1,
          fun s sx h => ⟨(generate_summary_ok_shape a s sx h).1,
                         (generate_summary_ok_shape a s sx h).2.2.1,
                         (generate_summary_ok_shape a s sx h).2.2.2.1⟩,
          ?_⟩
  intro s1 h1
  have hs1 := analyze_patterns_ok_shape a (initState text cases) s1 h1
  constructor
  · constructor
    · intro hft
      rw [hs1.2.1] at hft
      simp [initState] at hft
    · intro hnn
      rw [hs1.2.2.1] at hnn
      simp [initState] at hnn
  · intro s2 h2 hf1
    have hf2 : s2.is_fraud = true := by
      rw [(classify_type_ok_shape a s1 s2 h2).1, hf1]
    refine ⟨⟨fun _ => hf2, fun _ => hf2⟩, ?_⟩
    intro s3 h3
    have hf3 : s3.is_fraud = true := by
      rw [(generate_summary_ok_shape a s2 s3 h3).1, hf2]
    exact ⟨fun _ => hf3, fun _ => hf3⟩

/-- The state reached after `analyze_patterns` in the `aFraudNew` run. -/
def c6s1 : CuratorState :=
  { text := "txt", similar_cases := [],
    pattern_analysis := some ⟨true, ["novel"], "novel mechanism"⟩,
    fraud_type := none, final_summary := none, is_fraud := true,
    new_type_name := none }

/-- The state reached after `classify_type` in the `aFraudNew` run. -/
def c6s2 : CuratorState :=
  { text := "txt", similar_cases := [],
    pattern_analysis := some ⟨true, ["novel"], "novel mechanism"⟩,
    fraud_type := some ⟨"NEW", "no existing type fits",
                        some "SYNTHETIC IDENTITY"⟩,
    final_summary := none, is_fraud := true,
    new_type_name := some "SYNTHETIC IDENTITY" }

/-- Witness for C6 at a concrete fraud run that populates both guarded
fields. -/
theorem C6_state_invariant_witness :
    c6s2.is_fraud = c6s1.is_fraud ∧ fraudFieldsInv c6s2 := by
  have h := (C6_state_invariant aFraudNew "txt" []).2.2 c6s1 rfl
  exact ⟨(C6_state_invariant aFraudNew "txt" []).1 c6s1 c6s2 rfl,
         (h.2 c6s2 rfl rfl).1⟩

/-! ## C8 -/

/-- C8: a schema-validation failure at any of the three nodes aborts the
whole case analysis with the node's descriptive error; `analyze_case`
returns no `FraudAnalysis`. -/
theorem C8_validation_aborts (a : Agents) (now : Nat) (text : String)
    (cases : List String) :
    (∀ e, a.pattern_agent text = Except.error e →
      analyze_case a now text cases =
        Except.error
          ("Error al validar el resultado de PatternAnalysisAgent: " ++ e)) ∧
    (∀ p e, a.pattern_agent text = Except.ok p → p.is_fraud = true →
      a.type_agent (some p) cases = Except.error e →
      analyze_case a now text cases =
        Except.error
          ("Error al validar el resultado de FraudTypeAgent: " ++ e)) ∧
    (∀ p t e, a.pattern_agent text = Except.ok p → p.is_fraud = true →
      a.type_agent (some p) cases = Except.ok t →
      a.summary_agent (some p) (some t) = Except.error e →
      analyze_case a now text cases =
        Except.error
          ("Error al validar el resultado de SummaryAgent: " ++ e)) := by
  refine ⟨?_, ?_, ?_⟩
  · intro e he
    simp [analyze_case, runCuratorGraph, analyze_patterns, initState, he]
  · intro p e hp hf he
    simp [analyze_case, runCuratorGraph, analyze_patterns, classify_type,
          should_classify, initState, hp, hf, he]
  · intro p t e hp hf ht he
    simp [analyze_case, runCuratorGraph, analyze_patterns, classify_type,
          generate_summary, should_classify, initState, hp, hf, ht, he]

/-- Witness for C8 with one failing configuration per node. -/
theorem C8_validation_aborts_witness :
    analyze_case aPatternInvalid 0 "t" [] =
      Except.error ("Error al validar el resultado de PatternAnalysisAgent: "
        ++ "missing field reasoning") ∧
    analyze_case aTypeInvalid 0 "t" [] =
      Except.error ("Error al validar el resultado de FraudTypeAgent: "
        ++ "missing field fraud_type") ∧
    analyze_case aSummaryInvalid 0 "t" [] =
      Except.error ("Error al validar el resultado de SummaryAgent: "
        ++ "missing field summary") :=
  ⟨(C8_validation_aborts aPatternInvalid 0 "t" []).1 _ rfl,
   (C8_validation_aborts aTypeInvalid 0 "t" []).2.1 ⟨true, [], "rsn"⟩ _
     rfl rfl rfl,
   (C8_validation_aborts aSummaryInvalid 0 "t" []).2.2 ⟨true, [], "rsn"⟩
     ⟨"PHISHING", "ex", none⟩ _ rfl rfl rfl rfl⟩

/-! ## C9 -/

/-- C9: `_validate_and_parse_response`'s `try` body is a bare
`return response`, so handling the response cannot fail and the function
never raises: it returns the response unchanged on every input, and no
error value (which would carry the error text and the original response)
is ever produced.  The claimed equivalence "raises exactly when handling
the response fails" therefore holds with both sides false. -/
theorem C9_processing_never_fails :
    ∀ (α : Type) (r : α),
      validate_and_parse_response r = Except.ok r ∧
      ∀ err : String × α, validate_and_parse_response r ≠ Except.error err :=
  fun _ _ => ⟨rfl, fun _ h => Except.noConfusion h⟩

/-- Witness for C9 at a concrete response. -/
theorem C9_processing_never_fails_witness :
    validate_and_parse_response "raw model output" =
      Except.ok "raw model output" :=
  (C9_processing_never_fails String "raw model output").1

/-! ## C7: pydantic schema validation of FraudTypeOutput -/

/-- A JSON-like value, the shape of data pydantic validates. -/
inductive JVal where
  | jstr : String → JVal
  | jnull : JVal
  | jbool : Bool → JVal
  | jnum : Int → JVal
  | jlist : List JVal → JVal

/-- First value bound to a key in an association-list dict. -/
def jlookup (d : List (String × JVal)) (k : String) : Option JVal :=
  match d with
  | [] => none
  | (k2, v) :: rest => if k2 = k then some v else jlookup rest k

/-- `FraudTypeOutput.model_validate` (lines 54-57): the schema requires
`fraud_type` and `explanation` to be strings and `new_type_name` to be an
optional string defaulting to `None`; no validator relates the fields. -/
def fraudTypeValidate (d : List (String × JVal)) : Option FraudTypeOutput :=
  match jlookup d "fraud_type", jlookup d "explanation" with
  | some (JVal.jstr ft), some (JVal.jstr ex) =>
    match jlookup d "new_type_name" with
    | none => some { fraud_type := ft, explanation := ex,
                     new_type_name := none }
    | some JVal.jnull => some { fraud_type := ft, explanation := ex,
                                new_type_name := none }
    | some (JVal.jstr n) => some { fraud_type := ft, explanation := ex,
                                   new_type_name := some n }
    | some _ => none
  | _, _ => none

/-- C7 counterexample: schema validation accepts a value with
`fraud_type = "NEW"` and an absent `new_type_name`, and a value with a
non-`"NEW"` `fraud_type` and a non-empty `new_type_name`; the claimed
biconditional fails in both directions on schema-accepted values. -/
theorem C7_counterexample :
    fraudTypeValidate
        [("fraud_type", JVal.jstr "NEW"), ("explanation", JVal.jstr "x")] =
      some { fraud_type := "NEW", explanation := "x",
             new_type_name := none } ∧
    fraudTypeValidate
        [("fraud_type", JVal.jstr "PHISHING"),
         ("explanation", JVal.jstr "x"),
         ("new_type_name", JVal.jstr "EXTRA")] =
      some { fraud_type := "PHISHING", explanation := "x",
             new_type_name := some "EXTRA" } ∧
    ("PHISHING" : String) ≠ "NEW" ∧ ("EXTRA" : String) ≠ "" := by
  refine ⟨rfl, rfl, by decide, by decide⟩

/-- C7 (amended): schema validation of `FraudTypeOutput` constrains only
the field types; every combination of a string `fraud_type`, a string
`explanation` and an arbitrary optional-string `new_type_name` is
accepted, independent of whether `fraud_type` equals `"NEW"`. -/
theorem C7_schema_is_shape_only :
    ∀ (ft ex : String) (nn : Option String),
      fraudTypeValidate
          (("fraud_type", JVal.jstr ft) :: ("explanation", JVal.jstr ex) ::
            (match nn with
             | none => []
             | some n => [("new_type_name", JVal.jstr n)])) =
        some { fraud_type := ft, explanation := ex, new_type_name := nn } := by
  intro ft ex nn
  cases nn <;> simp [fraudTypeValidate, jlookup]
